import Mathlib

/-!
Verification development for the `alexandria` epub metadata reader
(`src/epub.py`).  The Python source is shallowly embedded: pure helpers
become Lean functions, Python exceptions become an explicit `Except PyErr`
result, the zip archive becomes an association list from member paths to
(already lexed) documents, and `xml.etree.ElementTree` trees become the
inductive `XmlTag`.  Python dicts are modelled as association lists with
first-match lookup (keys built by the code are unique).
-/

set_option autoImplicit false

namespace Alexandria

/-- Python exceptions that the embedded code can raise. -/
inductive PyErr where
  | keyError (k : String)
  | parseError
  | typeError
  | nameError
  | attributeError
  deriving DecidableEq, Repr

deriving instance DecidableEq for Except

/-- Attribute dictionaries: association lists from names to values. -/
abbrev AttrMap := List (String × String)

/-- Python `dict.get(k)` / `dict[k]` lookup: first entry with the given key. -/
def dget {α : Type} (m : List (String × α)) (k : String) : Option α :=
  (m.find? (fun q => q.1 == k)).map (fun q => q.2)

/-- Python truthiness of a `str`-or-`None` value: `None` and `""` are falsy. -/
def pyTruthyOptStr : Option String → Bool
  | none => false
  | some s => s != ""

/-- Python `s.strip()`: drop whitespace from both ends (the embedding uses
`Char.isWhitespace`, which covers the ASCII whitespace the inputs contain). -/
def pyStrip (s : String) : String :=
  String.mk (((s.toList.dropWhile Char.isWhitespace).reverse.dropWhile
    Char.isWhitespace).reverse)

/-- Python `s.lower()`, as a structural map over the characters. -/
def pyLower (s : String) : String :=
  String.mk (s.toList.map Char.toLower)

/-- Python `s.upper()`, as a structural map over the characters. -/
def pyUpper (s : String) : String :=
  String.mk (s.toList.map Char.toUpper)

/-- Python 2 `cmp(x, y) < 0` on strings: code-point lexicographic order. -/
def pyStrLt : List Char → List Char → Bool
  | [], [] => false
  | [], _ :: _ => true
  | _ :: _, [] => false
  | a :: as, b :: bs =>
    if a.val < b.val then true
    else if b.val < a.val then false
    else pyStrLt as bs

/-- Python `s.split(c)[0]`: the (possibly empty) prefix before the first `c`. -/
def splitFirst (s : String) (c : Char) : String :=
  String.mk (s.toList.takeWhile (fun a => a ≠ c))

/-- Python `s.split(' ')[-1]`: the (possibly empty) suffix after the last space. -/
def lastToken (s : String) : String :=
  String.mk ((s.toList.reverse.takeWhile (fun a => a ≠ ' ')).reverse)

/-- Chars strictly after the last `\x7d` of the list, when one exists. -/
def afterLastBrace : List Char → Option (List Char)
  | [] => none
  | c :: rest =>
    match afterLastBrace rest with
    | some s => some s
    | none => if c = '\x7d' then some rest else none

/-- `strip_namespace` (src/epub.py:121): `DENAMESPACE_RE.sub('', tag)` with the
greedy pattern matching from the start through the last closing brace, which
requires at least one character before that brace. -/
def strip_namespace (tag : String) : String :=
  match tag.toList with
  | [] => tag
  | _ :: rest =>
    match afterLastBrace rest with
    | some s => String.mk s
    | none => tag

/-- Python `dict` assignment: replace in place if the key exists, else append. -/
def dictInsert (m : AttrMap) (k v : String) : AttrMap :=
  if m.any (fun q => q.1 == k) then
    m.map (fun q => if q.1 == k then (k, v) else q)
  else
    m ++ [(k, v)]

/-- Python `dict(pairs)`: later pairs with an equal key overwrite earlier ones. -/
def dictOfPairs (ps : List (String × String)) : AttrMap :=
  ps.foldl (fun m p => dictInsert m p.1 p.2) []

/-- `clean_attribs` (src/epub.py:128): strip namespaces off the attribute keys
and lower-case them. -/
def clean_attribs (attrib : AttrMap) : AttrMap :=
  dictOfPairs (attrib.map (fun p => (pyLower (strip_namespace p.1), p.2)))

/-- `MetaValue` (src/epub.py:188): a value (the constructor's default is
Python `None`, hence `Option`) plus an attribute dict. -/
structure MetaValue where
  value : Option String
  attribs : AttrMap
  deriving DecidableEq, Repr

/-- An XML element as `xml.etree.ElementTree` presents it: the tag carries the
namespace in the documented internal form, attributes are a dict, `text` is
`None` or a string. -/
structure XmlTag where
  tag : String
  attrib : AttrMap
  text : Option String
  children : List XmlTag

/-- `Element.find(name)` for a plain tag name: first direct child with that tag. -/
def XmlTag.findChild (t : XmlTag) (name : String) : Option XmlTag :=
  t.children.find? (fun c => c.tag == name)

/-- `Element.findall(name)` for a plain tag name: all direct children with that
tag, in document order. -/
def XmlTag.findAll (t : XmlTag) (name : String) : List XmlTag :=
  t.children.filter (fun c => c.tag == name)

/-- `Element.find("a/b")`: the first grandchild reached through an `a` child and
then a `b` child, in document order. -/
def XmlTag.findPath2 (t : XmlTag) (a b : String) : Option XmlTag :=
  ((t.children.filter (fun c => c.tag == a)).flatMap
    (fun c => c.children.filter (fun d => d.tag == b))).head?

/-- `tag_to_metval` (src/epub.py:132): empty (or absent) text yields `""`,
non-empty text is stripped; attributes are cleaned. -/
def tag_to_metval (x : XmlTag) : MetaValue :=
  ⟨some (match x.text with
         | some t => if t ≠ "" then pyStrip t else ""
         | none => ""),
   clean_attribs x.attrib⟩

/-- `MetadataDict` (src/epub.py:140): a dict from field names to a single
`MetaValue` (publisher, language, title, description) or a list of them
(creator, contributor, identifier, date).  The embedding types the two
families separately; `get_metadata` only ever stores these shapes. -/
structure MetadataDict where
  singles : List (String × MetaValue)
  multis : List (String × List MetaValue)
  deriving DecidableEq, Repr

/-- `MetadataDict.creators` (src/epub.py:159): `self['creator']`, filtered when
a truthy role is given.  Indexing an absent key raises `KeyError`. -/
def MetadataDict.creators (md : MetadataDict) (role : Option String) :
    Except PyErr (List MetaValue) :=
  if pyTruthyOptStr role then
    match dget md.multis "creator" with
    | some xs => Except.ok (xs.filter (fun x => dget x.attribs "role" == role))
    | none => Except.error (PyErr.keyError "creator")
  else
    match dget md.multis "creator" with
    | some xs => Except.ok xs
    | none => Except.error (PyErr.keyError "creator")

/-- `MetadataDict.authors` (src/epub.py:165). -/
def MetadataDict.authors (md : MetadataDict) : Except PyErr (List MetaValue) :=
  md.creators (some "aut")

/-- `MetadataDict.identifiers` (src/epub.py:168). -/
def MetadataDict.identifiers (md : MetadataDict) (scheme : Option String) :
    Except PyErr (List MetaValue) :=
  if pyTruthyOptStr scheme then
    match dget md.multis "identifier" with
    | some xs => Except.ok (xs.filter (fun x => dget x.attribs "scheme" == scheme))
    | none => Except.error (PyErr.keyError "identifier")
  else
    match dget md.multis "identifier" with
    | some xs => Except.ok xs
    | none => Except.error (PyErr.keyError "identifier")

/-- `MetadataDict.isbn` (src/epub.py:174). -/
def MetadataDict.isbn (md : MetadataDict) : Except PyErr (List MetaValue) :=
  md.identifiers (some "ISBN")

/-- `MetadataDict.dates` (src/epub.py:177). -/
def MetadataDict.dates (md : MetadataDict) (event : Option String) :
    Except PyErr (List MetaValue) :=
  if pyTruthyOptStr event then
    match dget md.multis "date" with
    | some xs => Except.ok (xs.filter (fun x => dget x.attribs "event" == event))
    | none => Except.error (PyErr.keyError "date")
  else
    match dget md.multis "date" with
    | some xs => Except.ok xs
    | none => Except.error (PyErr.keyError "date")

/-- `MetadataDict.publication_date` (src/epub.py:183). -/
def MetadataDict.publication_date (md : MetadataDict) : Except PyErr (List MetaValue) :=
  md.dates (some "publication")

/-- The content of a zip member, as far as the reader inspects it: empty bytes
(falsy), bytes that are not well-formed XML, or a well-formed XML document. -/
inductive Doc where
  | empty
  | malformed
  | xml (root : XmlTag)

/-- A zip archive: an association list from member paths to contents. -/
structure EpubZip where
  members : List (String × Doc)

/-- `ZipFile.namelist()`: the member paths. -/
def EpubZip.namelist (z : EpubZip) : List String :=
  z.members.map (fun q => q.1)

/-- `ZipFile.read(path)`: member bytes, or `KeyError` when the path is not a
member of the archive. -/
def zipRead (z : EpubZip) (p : String) : Except PyErr Doc :=
  match dget z.members p with
  | some d => Except.ok d
  | none => Except.error (PyErr.keyError p)

/-- `xml.etree.ElementTree.fromstring`: the root element, or `ParseError` for
bytes that are not well-formed XML (empty bytes included). -/
def fromstring : Doc → Except PyErr XmlTag
  | Doc.xml root => Except.ok root
  | _ => Except.error PyErr.parseError

/-- `OPF_NS` (src/epub.py:42). -/
def OPF_NS : String := "http://www.idpf.org/2007/opf"

/-- `DC_NS` (src/epub.py:43). -/
def DC_NS : String := "http://purl.org/dc/elements/1.1/"

/-- The container namespace (src/epub.py:322). -/
def CONTAINER_NS : String := "urn:oasis:names:tc:opendocument:xmlns:container"

/-- Python `"\x7b%s\x7d%s" % (ns, t)`: a namespaced tag name. -/
def nsTag (ns t : String) : String := "\x7b" ++ ns ++ "\x7d" ++ t

/-- `EpubMetaReader.read_container_file` (src/epub.py:301): reads the fixed
container member; `zip.read` raises `KeyError` when it is missing. -/
def read_container_file (z : EpubZip) : Except PyErr Doc :=
  zipRead z "META-INF/container.xml"

/-- `EpubMetaReader.contents_path_from_container` (src/epub.py:309): parse the
container file and return its `rootfiles/rootfile` element's `full-path`
attribute, or `None` when the element or attribute is missing. -/
def contents_path_from_container (z : EpubZip) : Except PyErr (Option String) :=
  match read_container_file z with
  | Except.error e => Except.error e
  | Except.ok Doc.empty => Except.ok none
  | Except.ok container_text =>
    match fromstring container_text with
    | Except.error e => Except.error e
    | Except.ok container_tree =>
      match container_tree.findPath2 (nsTag CONTAINER_NS "rootfiles")
          (nsTag CONTAINER_NS "rootfile") with
      | some rootfile => Except.ok (dget rootfile.attrib "full-path")
      | none => Except.ok none

/-- The fixed fallback candidates of `find_contents_file` (src/epub.py:288). -/
def possibleFallbacks : List (Option String) :=
  [some "OEBPS/content.opf", some "OEBPS/Content.opf",
   some "content.opf", some "Content.opf"]

/-- The `for p in possible_paths: if p in zip_contents: return p` loop
(src/epub.py:295); Python `None in zip_contents` is false. -/
def firstHit (names : List String) : List (Option String) → Option String
  | [] => none
  | none :: rest => firstHit names rest
  | some p :: rest => if p ∈ names then some p else firstHit names rest

/-- `EpubMetaReader.find_contents_file` (src/epub.py:270): first candidate path
that is an exact member of the archive, container-declared path first. -/
def find_contents_file (z : EpubZip) : Except PyErr (Option String) :=
  match contents_path_from_container z with
  | Except.error e => Except.error e
  | Except.ok c => Except.ok (firstHit z.namelist (c :: possibleFallbacks))

/-- `EpubMetaReader.read_contents_file` (src/epub.py:260): the source calls
`find_contents_file` a second time inside `zip.read`. -/
def read_contents_file (z : EpubZip) : Except PyErr (Option Doc) :=
  match find_contents_file z with
  | Except.error e => Except.error e
  | Except.ok contents_path =>
    if pyTruthyOptStr contents_path then
      match find_contents_file z with
      | Except.error e => Except.error e
      | Except.ok none => Except.error PyErr.typeError
      | Except.ok (some p) =>
        match zipRead z p with
        | Except.error e => Except.error e
        | Except.ok d => Except.ok (some d)
    else Except.ok none

/-- One turn of the single-cardinality loop of `get_metadata`
(src/epub.py:248): at most one entry for the field `t`. -/
def buildSingle (m : XmlTag) (t : String) : List (String × MetaValue) :=
  match m.findChild (nsTag DC_NS t) with
  | some elem => [(t, tag_to_metval elem)]
  | none => []

/-- One turn of the multi-cardinality loop of `get_metadata`
(src/epub.py:252): no entry when no tag matches. -/
def buildMulti (m : XmlTag) (t : String) : List (String × List MetaValue) :=
  match m.findAll (nsTag DC_NS t) with
  | [] => []
  | elems => [(t, elems.map tag_to_metval)]

/-- The dict-building part of `get_metadata` (src/epub.py:247), given the
namespaced `metadata` element. -/
def build (m : XmlTag) : MetadataDict :=
  ⟨buildSingle m "publisher" ++ buildSingle m "language" ++
     buildSingle m "title" ++ buildSingle m "description",
   buildMulti m "creator" ++ buildMulti m "contributor" ++
     buildMulti m "identifier" ++ buildMulti m "date"⟩

/-- `EpubMetaReader.get_metadata` (src/epub.py:214): `None` when the contents
file is missing, empty, or has no namespaced `metadata` element; a hard
`ParseError` when its bytes are not well-formed XML. -/
def get_metadata (z : EpubZip) : Except PyErr (Option MetadataDict) :=
  match read_contents_file z with
  | Except.error e => Except.error e
  | Except.ok none => Except.ok none
  | Except.ok (some Doc.empty) => Except.ok none
  | Except.ok (some contents) =>
    match fromstring contents with
    | Except.error e => Except.error e
    | Except.ok con_tree =>
      match con_tree.findChild (nsTag OPF_NS "metadata") with
      | some m => Except.ok (some (build m))
      | none => Except.ok none

/-- `UNKNOWN` (src/epub.py:57). -/
def UNKNOWN : String := "UNKNOWN"

/-- `YEAR_RE.match` (src/epub.py:47): the leading four-digit run, when the
string starts with four ASCII digits. -/
def leadingYear (s : String) : Option String :=
  let cs := s.toList
  if 4 ≤ cs.length ∧ (cs.take 4).all Char.isDigit then
    some (String.mk (cs.take 4))
  else none

/-- `CLEAN_ISBN_RE.sub('', s).upper()` (src/epub.py:49): drop hyphens and
spaces, upper-case the rest. -/
def cleanIsbn (s : String) : String :=
  pyUpper (String.mk (s.toList.filter (fun c => c ≠ '-' ∧ c ≠ ' ')))

/-- Python 2 `cmp` on the `value` fields (src/epub.py:72); `None` compares
below every string. -/
def valLe (a b : Option String) : Bool :=
  match a, b with
  | none, _ => true
  | some _, none => false
  | some x, some y => ! pyStrLt y.toList x.toList

/-- `sorted(dateval, cmp=...)[0]` (src/epub.py:72): the value-least element,
earliest occurrence first (Python's sort is stable). -/
def pickEarliest (x : MetaValue) (rest : List MetaValue) : MetaValue :=
  rest.foldl (fun acc y => if valLe acc.value y.value then acc else y) x

/-- `auths = md.authors() or md.creators()` (src/epub.py:60). -/
def rf_auths (md : MetadataDict) : Except PyErr (List MetaValue) :=
  match md.authors with
  | Except.error e => Except.error e
  | Except.ok [] => md.creators none
  | Except.ok a => Except.ok a

/-- The surname block of `rename_file` (src/epub.py:59): `none` models the
local variable `name` being left unassigned when there are no authors. -/
def rf_name (md : MetadataDict) : Except PyErr (Option String) :=
  match rf_auths md with
  | Except.error e => Except.error e
  | Except.ok [] => Except.ok none
  | Except.ok (first_auth :: _) =>
    let cand1 := splitFirst ((dget first_auth.attribs "file-as").getD "") ','
    if cand1 ≠ "" then Except.ok (some cand1)
    else
      match first_auth.value with
      | none => Except.error PyErr.attributeError
      | some v =>
        let cand2 := lastToken v
        if cand2 ≠ "" then Except.ok (some cand2) else Except.ok (some UNKNOWN)

/-- The year block of `rename_file` (src/epub.py:68). -/
def rf_pubdate (md : MetadataDict) : Except PyErr String :=
  match md.publication_date with
  | Except.error e => Except.error e
  | Except.ok pd =>
    let dateval : Option (List MetaValue) :=
      match pd with
      | [] => dget md.multis "date"
      | _ => some pd
    match dateval with
    | none => Except.ok UNKNOWN
    | some [] => Except.ok UNKNOWN
    | some (x :: rest) =>
      match (pickEarliest x rest).value with
      | none => Except.error PyErr.typeError
      | some v =>
        match leadingYear v with
        | some y => Except.ok y
        | none => Except.ok UNKNOWN

/-- The title block of `rename_file` (src/epub.py:79): `md.get('title')` is a
`None`-safe dict lookup, and a `MetaValue` object is always truthy. -/
def rf_short_title (md : MetadataDict) : Except PyErr String :=
  match dget md.singles "title" with
  | some title =>
    match title.value with
    | none => Except.error PyErr.attributeError
    | some v => Except.ok (splitFirst v ':')
  | none => Except.ok UNKNOWN

/-- The fallback scan of the isbn block (src/epub.py:94): first identifier
whose cleaned value has length 10 or 13, else the `UNKNOWN` set before the
loop. -/
def scanIds : List MetaValue → Except PyErr String
  | [] => Except.ok UNKNOWN
  | x :: rest =>
    match x.value with
    | none => Except.error PyErr.typeError
    | some v =>
      let id_val := cleanIsbn v
      if id_val.length = 10 ∨ id_val.length = 13 then Except.ok id_val
      else scanIds rest

/-- The isbn block of `rename_file` (src/epub.py:87). -/
def rf_isbn (md : MetadataDict) : Except PyErr String :=
  match md.isbn with
  | Except.error e => Except.error e
  | Except.ok (x :: _) =>
    match x.value with
    | none => Except.error PyErr.typeError
    | some v => Except.ok (cleanIsbn v)
  | Except.ok [] =>
    match md.identifiers none with
    | Except.error e => Except.error e
    | Except.ok allIds => scanIds allIds

/-- `rename_file` (src/epub.py:55) up to the composed string: the blocks run
in source order, and the final format string raises `NameError` when the
surname block never assigned `name`.  The `os.rename` side effect is outside
the embedding. -/
def rename_file_name (md : MetadataDict) : Except PyErr String :=
  match rf_name md with
  | Except.error e => Except.error e
  | Except.ok nameOpt =>
    match rf_pubdate md with
    | Except.error e => Except.error e
    | Except.ok pubdate =>
      match rf_short_title md with
      | Except.error e => Except.error e
      | Except.ok short_title =>
        match rf_isbn md with
        | Except.error e => Except.error e
        | Except.ok isbn =>
          match nameOpt with
          | none => Except.error PyErr.nameError
          | some nm =>
            Except.ok (nm ++ " (" ++ pubdate ++ ") " ++ short_title ++
                       " (isbn" ++ isbn ++ ").epub")

/-- Modelled from the spec (section 4.4): the short-title slot as the spec
words it, the portion before the first colon **trimmed of surrounding
whitespace** — stated for comparison with the code's `rf_short_title`. -/
def spec_short_title (v : String) : String :=
  pyStrip (splitFirst v ':')

/-- A heap of attribute dicts, to express Python aliasing: an index stands for
object identity of a mutable dict. -/
structure AttrHeap where
  slots : List AttrMap

/-- The dict currently stored at slot `i`. -/
def heapGet (h : AttrHeap) (i : Nat) : AttrMap :=
  h.slots.getD i []

/-- Overwrite (mutate) the dict at slot `i`. -/
def heapSet (h : AttrHeap) (i : Nat) (m : AttrMap) : AttrHeap :=
  ⟨h.slots.set i m⟩

/-- `MetaValue.__init__` (src/epub.py:192): `copy.deepcopy(attribs)` reads the
current contents of the source dict and stores them by value; the default for
`value` is Python `None`. -/
def MetaValue.init (h : AttrHeap) (i : Nat) (v : Option String) : MetaValue :=
  ⟨v, heapGet h i⟩

/-- Construct a `MetaValue` from the dict at slot `i`, then mutate that slot:
the order of the two steps is the point under test. -/
def buildThenMutate (h : AttrHeap) (i : Nat) (v : Option String) (m : AttrMap) :
    MetaValue × AttrHeap :=
  (MetaValue.init h i v, heapSet h i m)

/-! Concrete inputs used by the theorems below. -/

/-- A `MetaValue` with a plain string value and no attributes. -/
def mvPlain (v : String) : MetaValue := ⟨some v, []⟩

/-- A metadata record with no fields at all. -/
def mdEmpty : MetadataDict := ⟨[], []⟩

/-- Title, date and identifier present, but no `creator` key. -/
def mdNoCreatorKey : MetadataDict :=
  ⟨[("title", mvPlain "T")],
   [("date", [mvPlain "2000"]), ("identifier", [mvPlain "1234567890"])]⟩

/-- A `creator` key holding an empty list, all other rename inputs present. -/
def mdEmptyCreators : MetadataDict :=
  ⟨[("title", mvPlain "T")],
   [("creator", []), ("date", [mvPlain "2000"]),
    ("identifier", [mvPlain "1234567890"])]⟩

/-- An author with a `file-as` attribute. -/
def mvDoeAut : MetaValue :=
  ⟨some "Jane Doe", [("role", "aut"), ("file-as", "Doe, Jane")]⟩

/-- An editor. -/
def mvDoeEdt : MetaValue := ⟨some "Ed Itor", [("role", "edt")]⟩

/-- Two creators: an author with a `file-as` attribute, and an editor. -/
def mdDoe : MetadataDict :=
  ⟨[], [("creator", [mvDoeAut, mvDoeEdt])]⟩

/-- One author without a `file-as` attribute. -/
def mdSpaceName : MetadataDict :=
  ⟨[], [("creator", [⟨some "Jane Doe", [("role", "aut")]⟩])]⟩

/-- One author whose raw value ends in a space, without `file-as`. -/
def mdTrailingSpace : MetadataDict :=
  ⟨[], [("creator", [⟨some "Jane ", [("role", "aut")]⟩])]⟩

/-- Two dates, both tagged `event="publication"`. -/
def mdTwoDates : MetadataDict :=
  ⟨[], [("date", [⟨some "2005-03-01", [("event", "publication")]⟩,
                  ⟨some "1999-07-15", [("event", "publication")]⟩])]⟩

/-- A `date` key holding an empty list. -/
def mdEmptyDates : MetadataDict := ⟨[], [("date", [])]⟩

/-- One date value with no leading four-digit run. -/
def mdNoDigitDate : MetadataDict := ⟨[], [("date", [mvPlain "n.d."])]⟩

/-- The spec's ISBN example identifier. -/
def mvIsbnEx : MetaValue := ⟨some "978-0-13-468599-1", [("scheme", "ISBN")]⟩

/-- A metadata record with exactly the spec's example identifier. -/
def mdIsbnEx : MetadataDict := ⟨[], [("identifier", [mvIsbnEx])]⟩

/-- A title with whitespace on both sides of the colon. -/
def mdColonTitle : MetadataDict := ⟨[("title", mvPlain "A : B")], []⟩

/-- A plain colon-bearing title. -/
def mdWarPeace : MetadataDict :=
  ⟨[("title", mvPlain "War and Peace: A Novel")], []⟩

/-- A packaging `metadata` element with a title but zero `identifier` children. -/
def mNoIds : XmlTag :=
  ⟨nsTag OPF_NS "metadata", [], none,
   [⟨nsTag DC_NS "title", [], some "T", []⟩]⟩

/-- A title element with padding whitespace in its text. -/
def xTitleEx : XmlTag :=
  ⟨nsTag DC_NS "title", [], some " War and Peace: A Novel ", []⟩

/-- A creator element with namespaced attributes. -/
def xCreator1Ex : XmlTag :=
  ⟨nsTag DC_NS "creator",
   [(nsTag OPF_NS "role", "aut"), (nsTag OPF_NS "file-as", "Doe, Jane")],
   some "Jane Doe", []⟩

/-- A second creator element. -/
def xCreator2Ex : XmlTag :=
  ⟨nsTag DC_NS "creator", [("role", "edt")], some "Ed Itor", []⟩

/-- An ISBN identifier element. -/
def xIdEx : XmlTag :=
  ⟨nsTag DC_NS "identifier", [("scheme", "ISBN")], some "978-0-13-468599-1", []⟩

/-- A description element whose text is present but empty. -/
def xDescEx : XmlTag := ⟨nsTag DC_NS "description", [], some "", []⟩

/-- A packaging `metadata` element exercising every conversion rule: namespaced
attributes, multiple creators, an ISBN identifier, and an empty description. -/
def mEx : XmlTag :=
  ⟨nsTag OPF_NS "metadata", [], none,
   [xTitleEx, xCreator1Ex, xCreator2Ex, xIdEx, xDescEx]⟩

/-- A container `rootfile` element declaring the given `full-path`. -/
def rootfileElem (p : String) : XmlTag :=
  ⟨nsTag CONTAINER_NS "rootfile", [("full-path", p)], none, []⟩

/-- A well-formed container document declaring the given `full-path`. -/
def containerXml (p : String) : XmlTag :=
  ⟨nsTag CONTAINER_NS "container", [], none,
   [⟨nsTag CONTAINER_NS "rootfiles", [], none, [rootfileElem p]⟩]⟩

/-- A well-formed packaging document with no `metadata` element. -/
def opfDocNoMeta : Doc :=
  Doc.xml ⟨nsTag OPF_NS "package", [], none, []⟩

/-- A well-formed packaging document whose `metadata` element is `mEx`. -/
def opfDocWithMeta : Doc :=
  Doc.xml ⟨nsTag OPF_NS "package", [], none, [mEx]⟩

/-- An archive with a top-level `content.opf` but no container member. -/
def zNoContainer : EpubZip := ⟨[("content.opf", opfDocNoMeta)]⟩

/-- An archive whose container declares `OEBPS/book.opf`, with fallback-named
members also present. -/
def zDeclared : EpubZip :=
  ⟨[("META-INF/container.xml", Doc.xml (containerXml "OEBPS/book.opf")),
    ("OEBPS/book.opf", opfDocNoMeta),
    ("OEBPS/content.opf", opfDocNoMeta),
    ("content.opf", opfDocNoMeta)]⟩

/-- An archive whose container has a `rootfile` element without a `full-path`
attribute, plus a top-level `content.opf`. -/
def zNoFullPath : EpubZip :=
  ⟨[("META-INF/container.xml",
     Doc.xml ⟨nsTag CONTAINER_NS "container", [], none,
              [⟨nsTag CONTAINER_NS "rootfiles", [], none,
                [⟨nsTag CONTAINER_NS "rootfile", [], none, []⟩]⟩]⟩),
    ("content.opf", opfDocNoMeta)]⟩

/-- An archive whose container member is not well-formed XML. -/
def zBadContainer : EpubZip :=
  ⟨[("META-INF/container.xml", Doc.malformed), ("content.opf", opfDocNoMeta)]⟩

/-- An archive with no packaging descriptor at any candidate path. -/
def zNoMatch : EpubZip :=
  ⟨[("META-INF/container.xml", Doc.empty), ("mimetype", Doc.empty)]⟩

/-- An archive whose located descriptor is not well-formed XML. -/
def zMalformedOpf : EpubZip :=
  ⟨[("META-INF/container.xml", Doc.empty), ("content.opf", Doc.malformed)]⟩

/-- An archive whose located descriptor parses but has no `metadata` element. -/
def zNoMetaOpf : EpubZip :=
  ⟨[("META-INF/container.xml", Doc.empty), ("content.opf", opfDocNoMeta)]⟩

/-- An archive whose located descriptor carries the full example metadata. -/
def zWithMeta : EpubZip :=
  ⟨[("META-INF/container.xml", Doc.empty), ("content.opf", opfDocWithMeta)]⟩

/-! Helper lemmas shared by the claim theorems. -/

/-- Indexing `self['creator']` with the key absent raises `KeyError`, whatever
the role argument. -/
theorem creators_absent (md : MetadataDict) (role : Option String)
    (h : dget md.multis "creator" = none) :
    md.creators role = Except.error (PyErr.keyError "creator") := by
  unfold MetadataDict.creators
  cases hb : pyTruthyOptStr role <;> simp [hb, h]

/-- With the key present, `creators()` returns the full stored list. -/
theorem creators_present_all (md : MetadataDict) (xs : List MetaValue)
    (h : dget md.multis "creator" = some xs) :
    md.creators none = Except.ok xs := by
  unfold MetadataDict.creators
  simp [pyTruthyOptStr, h]

/-- With the key present and a truthy role, `creators(role)` filters on the
`role` attribute. -/
theorem creators_present_filtered (md : MetadataDict) (xs : List MetaValue)
    (r : String) (h : dget md.multis "creator" = some xs) (hr : r ≠ "") :
    md.creators (some r) =
      Except.ok (xs.filter (fun x => dget x.attribs "role" == some r)) := by
  unfold MetadataDict.creators
  have hb : pyTruthyOptStr (some r) = true := by simp [pyTruthyOptStr, hr]
  simp [hb, h]

/-- Indexing `self['identifier']` with the key absent raises `KeyError`. -/
theorem identifiers_absent (md : MetadataDict) (scheme : Option String)
    (h : dget md.multis "identifier" = none) :
    md.identifiers scheme = Except.error (PyErr.keyError "identifier") := by
  unfold MetadataDict.identifiers
  cases hb : pyTruthyOptStr scheme <;> simp [hb, h]

/-- With the key present, `identifiers()` returns the full stored list. -/
theorem identifiers_present_all (md : MetadataDict) (xs : List MetaValue)
    (h : dget md.multis "identifier" = some xs) :
    md.identifiers none = Except.ok xs := by
  unfold MetadataDict.identifiers
  simp [pyTruthyOptStr, h]

/-- With the key present and a truthy scheme, `identifiers(scheme)` filters on
the `scheme` attribute. -/
theorem identifiers_present_filtered (md : MetadataDict) (xs : List MetaValue)
    (r : String) (h : dget md.multis "identifier" = some xs) (hr : r ≠ "") :
    md.identifiers (some r) =
      Except.ok (xs.filter (fun x => dget x.attribs "scheme" == some r)) := by
  unfold MetadataDict.identifiers
  have hb : pyTruthyOptStr (some r) = true := by simp [pyTruthyOptStr, hr]
  simp [hb, h]

/-- Indexing `self['date']` with the key absent raises `KeyError`. -/
theorem dates_absent (md : MetadataDict) (event : Option String)
    (h : dget md.multis "date" = none) :
    md.dates event = Except.error (PyErr.keyError "date") := by
  unfold MetadataDict.dates
  cases hb : pyTruthyOptStr event <;> simp [hb, h]

/-- With the key present, `dates()` returns the full stored list. -/
theorem dates_present_all (md : MetadataDict) (xs : List MetaValue)
    (h : dget md.multis "date" = some xs) :
    md.dates none = Except.ok xs := by
  unfold MetadataDict.dates
  simp [pyTruthyOptStr, h]

/-- With the key present and a truthy event, `dates(event)` filters on the
`event` attribute. -/
theorem dates_present_filtered (md : MetadataDict) (xs : List MetaValue)
    (r : String) (h : dget md.multis "date" = some xs) (hr : r ≠ "") :
    md.dates (some r) =
      Except.ok (xs.filter (fun x => dget x.attribs "event" == some r)) := by
  unfold MetadataDict.dates
  have hb : pyTruthyOptStr (some r) = true := by simp [pyTruthyOptStr, hr]
  simp [hb, h]

/-- Dict lookup distributes over append: the first list wins. -/
theorem dget_append {α : Type} (a b : List (String × α)) (k : String) :
    dget (a ++ b) k = Option.or (dget a k) (dget b k) := by
  unfold dget
  rw [List.find?_append]
  cases a.find? (fun q => q.1 == k) <;> simp [Option.or]

/-- Looking up the field a `buildSingle` turn is responsible for yields exactly
the converted first matching child. -/
theorem dget_buildSingle_eq (m : XmlTag) (t : String) :
    dget (buildSingle m t) t = Option.map tag_to_metval (m.findChild (nsTag DC_NS t)) := by
  unfold buildSingle
  cases h : m.findChild (nsTag DC_NS t) <;> simp [dget, List.find?]

/-- A `buildSingle` turn contributes nothing under any other key. -/
theorem dget_buildSingle_ne (m : XmlTag) (t k : String) (h : t ≠ k) :
    dget (buildSingle m t) k = none := by
  have hb : (t == k) = false := beq_eq_false_iff_ne.mpr h
  unfold buildSingle
  cases hfc : m.findChild (nsTag DC_NS t) <;> simp [dget, List.find?, hb]

/-- With no matching children, a `buildMulti` turn omits its key. -/
theorem dget_buildMulti_nil (m : XmlTag) (t : String)
    (h : m.findAll (nsTag DC_NS t) = []) :
    dget (buildMulti m t) t = none := by
  unfold buildMulti
  rw [h]
  rfl

/-- With matching children, a `buildMulti` turn stores them all, converted, in
document order. -/
theorem dget_buildMulti_cons (m : XmlTag) (t : String) (e : XmlTag)
    (es : List XmlTag) (h : m.findAll (nsTag DC_NS t) = e :: es) :
    dget (buildMulti m t) t = some (List.map tag_to_metval (e :: es)) := by
  unfold buildMulti
  rw [h]
  simp [dget, List.find?]

/-- A `buildMulti` turn contributes nothing under any other key. -/
theorem dget_buildMulti_ne (m : XmlTag) (t k : String) (h : t ≠ k) :
    dget (buildMulti m t) k = none := by
  have hb : (t == k) = false := beq_eq_false_iff_ne.mpr h
  unfold buildMulti
  cases hfa : m.findAll (nsTag DC_NS t) <;> simp [dget, List.find?, hb]

/-- A key of a `dictInsert` result is the inserted key or a key of the old
dict. -/
theorem mem_dictInsert_key (m : AttrMap) (k v : String) (q : String × String)
    (hq : q ∈ dictInsert m k v) : q.1 = k ∨ ∃ p ∈ m, q.1 = p.1 := by
  unfold dictInsert at hq
  split at hq
  · obtain ⟨p, hp, hfp⟩ := List.mem_map.mp hq
    by_cases hpk : (p.1 == k) = true
    · left
      rw [← hfp]
      simp [hpk]
    · right
      refine ⟨p, hp, ?_⟩
      rw [← hfp]
      simp [hpk]
  · rcases List.mem_append.mp hq with h | h
    · right
      exact ⟨q, h, rfl⟩
    · left
      simp at h
      rw [h]

/-- Every key of the `dict(pairs)` fold comes from the accumulator or from the
pair list. -/
theorem key_mem_foldl (ps : List (String × String)) :
    ∀ (acc : AttrMap) (q : String × String),
      q ∈ ps.foldl (fun m p => dictInsert m p.1 p.2) acc →
      (∃ p ∈ acc, q.1 = p.1) ∨ (∃ p ∈ ps, q.1 = p.1) := by
  induction ps with
  | nil =>
    intro acc q hq
    exact Or.inl ⟨q, hq, rfl⟩
  | cons p ps ih =>
    intro acc q hq
    rw [List.foldl_cons] at hq
    rcases ih (dictInsert acc p.1 p.2) q hq with ⟨r, hr, hqr⟩ | ⟨r, hr, hqr⟩
    · rcases mem_dictInsert_key acc p.1 p.2 r hr with h | ⟨s, hs, hrs⟩
      · right
        exact ⟨p, List.mem_cons_self p ps, by rw [hqr, h]⟩
      · left
        exact ⟨s, hs, by rw [hqr, hrs]⟩
    · right
      exact ⟨r, List.mem_cons_of_mem p hr, hqr⟩

/-- Every attribute key produced by `clean_attribs` is the namespace-stripped,
lower-cased form of a source attribute key. -/
theorem clean_attribs_keys (a : AttrMap) (q : String × String)
    (hq : q ∈ clean_attribs a) :
    ∃ p ∈ a, q.1 = pyLower (strip_namespace p.1) := by
  unfold clean_attribs dictOfPairs at hq
  rcases key_mem_foldl _ [] q hq with ⟨p, hp, _⟩ | ⟨p, hp, hqp⟩
  · simp at hp
  · obtain ⟨r, hr, hrp⟩ := List.mem_map.mp hp
    refine ⟨r, hr, ?_⟩
    rw [hqp, ← hrp]

/-- `firstHit` only ever returns members of the name list. -/
theorem firstHit_mem (names : List String) (l : List (Option String))
    (p : String) (hl : firstHit names l = some p) : p ∈ names := by
  induction l with
  | nil => simp [firstHit] at hl
  | cons c rest ih =>
    cases c with
    | none => exact ih (by simpa [firstHit] using hl)
    | some q =>
      simp only [firstHit] at hl
      split at hl
      · cases Option.some.inj hl
        assumption
      · exact ih hl

/-- A key that occurs among a dict's keys has a lookup value. -/
theorem dget_of_mem_keys {α : Type} (l : List (String × α)) (p : String)
    (h : p ∈ l.map (fun q => q.1)) : ∃ d, dget l p = some d := by
  induction l with
  | nil => simp at h
  | cons q rest ih =>
    by_cases hq : (q.1 == p) = true
    · refine ⟨q.2, ?_⟩
      unfold dget
      rw [@List.find?_cons_of_pos (String × α) (fun r => r.1 == p) q rest hq]
      rfl
    · have hmem : p ∈ rest.map (fun r => r.1) := by
        simp only [List.map_cons, List.mem_cons] at h
        rcases h with h | h
        · exact absurd (beq_iff_eq.mpr h.symm) hq
        · exact h
      obtain ⟨d, hd⟩ := ih hmem
      refine ⟨d, ?_⟩
      unfold dget at hd ⊢
      rw [@List.find?_cons_of_neg (String × α) (fun r => r.1 == p) q rest hq]
      exact hd

/-- The fallback loop of the isbn block leaves `UNKNOWN` when every identifier
has a string value whose cleaned form has length other than 10 and 13. -/
theorem scanIds_bad (xs : List MetaValue)
    (h : ∀ x ∈ xs, ∃ v, x.value = some v ∧
      (cleanIsbn v).length ≠ 10 ∧ (cleanIsbn v).length ≠ 13) :
    scanIds xs = Except.ok UNKNOWN := by
  induction xs with
  | nil => rfl
  | cons x rest ih =>
    obtain ⟨v, hv, h10, h13⟩ := h x (List.mem_cons_self x rest)
    have hrest := ih (fun y hy => h y (List.mem_cons_of_mem x hy))
    simp [scanIds, hv, h10, h13, hrest]

/-- The fallback loop of the isbn block returns the first identifier whose
cleaned value has length 10 or 13, skipping earlier non-qualifying ones. -/
theorem scanIds_found (pre : List MetaValue) (x : MetaValue)
    (post : List MetaValue) (v : String)
    (hpre : ∀ y ∈ pre, ∃ w, y.value = some w ∧
      (cleanIsbn w).length ≠ 10 ∧ (cleanIsbn w).length ≠ 13)
    (hv : x.value = some v)
    (hlen : (cleanIsbn v).length = 10 ∨ (cleanIsbn v).length = 13) :
    scanIds (pre ++ x :: post) = Except.ok (cleanIsbn v) := by
  induction pre with
  | nil => rcases hlen with h | h <;> simp [scanIds, hv, h]
  | cons y pre ih =>
    obtain ⟨w, hw, h10, h13⟩ := hpre y (List.mem_cons_self y pre)
    simpa [scanIds, hw, h10, h13] using
      ih (fun z hz => hpre z (List.mem_cons_of_mem y hz))

/-! Claim theorems. -/

/-- C1: for a `MetadataDict` built from a descriptor with zero `identifier`
elements, the `identifier` key is indeed absent — but `identifiers()` and
`isbn()` do not return an empty sequence: they raise `KeyError`. -/
theorem c1_counterexample :
    dget (build mNoIds).multis "identifier" = none
    ∧ (build mNoIds).identifiers none =
        Except.error (PyErr.keyError "identifier")
    ∧ (build mNoIds).isbn = Except.error (PyErr.keyError "identifier")
    ∧ (build mNoIds).isbn ≠ Except.ok [] :=
  ⟨rfl, rfl, rfl, by decide⟩

/-- C1 (amended): when the underlying field key is present each typed accessor
returns the full stored sequence (without a filter argument) or the filtered
subsequence (with one); when the key is absent, every accessor — filtered or
not — raises `KeyError` instead of returning an empty sequence. -/
theorem c1_theorem (md : MetadataDict) :
    (dget md.multis "creator" = none →
       md.creators none = Except.error (PyErr.keyError "creator")
       ∧ (∀ r, md.creators (some r) = Except.error (PyErr.keyError "creator"))
       ∧ md.authors = Except.error (PyErr.keyError "creator"))
    ∧ (dget md.multis "identifier" = none →
       md.identifiers none = Except.error (PyErr.keyError "identifier")
       ∧ md.isbn = Except.error (PyErr.keyError "identifier"))
    ∧ (dget md.multis "date" = none →
       md.dates none = Except.error (PyErr.keyError "date")
       ∧ md.publication_date = Except.error (PyErr.keyError "date"))
    ∧ (∀ xs, dget md.multis "creator" = some xs →
       md.creators none = Except.ok xs
       ∧ (∀ r, r ≠ "" → md.creators (some r) =
           Except.ok (xs.filter (fun x => dget x.attribs "role" == some r)))
       ∧ md.authors =
           Except.ok (xs.filter (fun x => dget x.attribs "role" == some "aut")))
    ∧ (∀ xs, dget md.multis "identifier" = some xs →
       md.identifiers none = Except.ok xs
       ∧ md.isbn =
           Except.ok (xs.filter (fun x => dget x.attribs "scheme" == some "ISBN")))
    ∧ (∀ xs, dget md.multis "date" = some xs →
       md.dates none = Except.ok xs
       ∧ md.publication_date =
           Except.ok (xs.filter (fun x => dget x.attribs "event" == some "publication"))) :=
  ⟨fun h => ⟨creators_absent md none h, fun r => creators_absent md (some r) h,
     creators_absent md (some "aut") h⟩,
   fun h => ⟨identifiers_absent md none h, identifiers_absent md (some "ISBN") h⟩,
   fun h => ⟨dates_absent md none h, dates_absent md (some "publication") h⟩,
   fun xs h => ⟨creators_present_all md xs h,
     fun r hr => creators_present_filtered md xs r h hr,
     creators_present_filtered md xs "aut" h (by decide)⟩,
   fun xs h => ⟨identifiers_present_all md xs h,
     identifiers_present_filtered md xs "ISBN" h (by decide)⟩,
   fun xs h => ⟨dates_present_all md xs h,
     dates_present_filtered md xs "publication" h (by decide)⟩⟩

/-- C1 (witness): the accessors evaluated on concrete records through
`c1_theorem` — a present creator list is returned whole and filtered, and an
absent identifier key raises. -/
theorem c1_witness :
    mdDoe.creators none = Except.ok [mvDoeAut, mvDoeEdt]
    ∧ mdDoe.authors = Except.ok [mvDoeAut]
    ∧ mdEmpty.identifiers none = Except.error (PyErr.keyError "identifier") :=
  ⟨((c1_theorem mdDoe).2.2.2.1 [mvDoeAut, mvDoeEdt] rfl).1,
   ((c1_theorem mdDoe).2.2.2.1 [mvDoeAut, mvDoeEdt] rfl).2.2,
   ((c1_theorem mdEmpty).2.1 rfl).1⟩

/-- C2: the locator returns the first candidate — container-declared path
first, then the four fixed fallbacks — that exactly matches a member, and
absence when none matches; but when the container member itself is missing
(or unparseable) the locator does not skip step 1: it fails with the
exception from `zip.read` (resp. the XML parser), so an archive lacking a
container but holding a top-level `content.opf` raises `KeyError` instead of
resolving to `content.opf`. -/
theorem c2_theorem :
    find_contents_file zNoContainer =
      Except.error (PyErr.keyError "META-INF/container.xml")
    ∧ find_contents_file zDeclared = Except.ok (some "OEBPS/book.opf")
    ∧ find_contents_file zNoFullPath = Except.ok (some "content.opf")
    ∧ find_contents_file zBadContainer = Except.error PyErr.parseError
    ∧ find_contents_file zNoMatch = Except.ok none :=
  ⟨rfl, rfl, rfl, rfl, rfl⟩

/-- C3: the surname slot comes from the first author (authors, else all
creators), via `file-as` before the first comma, else the last
space-separated token, else `UNKNOWN`; but composition does fail for missing
authors: with no `creator` key it raises `KeyError`, and with an empty
creator list the local `name` is never assigned, so the final format string
raises `NameError` instead of using `UNKNOWN`. -/
theorem c3_theorem :
    rename_file_name mdNoCreatorKey = Except.error (PyErr.keyError "creator")
    ∧ rename_file_name mdEmptyCreators = Except.error PyErr.nameError
    ∧ rf_name mdDoe = Except.ok (some "Doe")
    ∧ rf_name mdSpaceName = Except.ok (some "Doe")
    ∧ rf_name mdTrailingSpace = Except.ok (some UNKNOWN) :=
  ⟨rfl, rfl, rfl, rfl, rfl⟩

/-- C4: the year slot takes all publication dates, falling back to the whole
`date` field, picks the lexicographically smallest value and its leading
four-digit run, with `UNKNOWN` when the list is empty or no run matches —
and `1999` for the spec's two-date example; but when the `date` key is absent
the slot is not `UNKNOWN`: `publication_date()` raises `KeyError` before the
`None`-safe `md.get('date')` fallback is reached. -/
theorem c4_theorem :
    rf_pubdate mdEmpty = Except.error (PyErr.keyError "date")
    ∧ rf_pubdate mdTwoDates = Except.ok "1999"
    ∧ rf_pubdate mdEmptyDates = Except.ok UNKNOWN
    ∧ rf_pubdate mdNoDigitDate = Except.ok UNKNOWN :=
  ⟨rfl, rfl, rfl, rfl⟩

/-- C5: when the `identifier` key is absent the ISBN slot is not `UNKNOWN` —
`md.isbn()` raises `KeyError` before any fallback is reached. -/
theorem c5_counterexample :
    rf_isbn mdEmpty = Except.error (PyErr.keyError "identifier")
    ∧ rf_isbn mdEmpty ≠ Except.ok UNKNOWN :=
  ⟨rfl, by decide⟩

/-- C5 (amended): for a `MetadataDict` whose `identifier` key is present, the
ISBN slot is the cleaned (hyphens and spaces removed, upper-cased) value of
the first scheme-`ISBN` identifier; with no scheme-`ISBN` identifier it is
`UNKNOWN` when no identifier's cleaned value has length 10 or 13, and
otherwise the cleaned value of the first identifier, in document order, whose
cleaned value has length 10 or 13. -/
theorem c5_theorem (md : MetadataDict) (xs : List MetaValue)
    (hp : dget md.multis "identifier" = some xs) :
    (∀ x tl v,
       xs.filter (fun y => dget y.attribs "scheme" == some "ISBN") = x :: tl →
       x.value = some v → rf_isbn md = Except.ok (cleanIsbn v))
    ∧ (xs.filter (fun y => dget y.attribs "scheme" == some "ISBN") = [] →
       (∀ x ∈ xs, ∃ v, x.value = some v ∧
          (cleanIsbn v).length ≠ 10 ∧ (cleanIsbn v).length ≠ 13) →
       rf_isbn md = Except.ok UNKNOWN)
    ∧ (∀ pre x post v,
       xs.filter (fun y => dget y.attribs "scheme" == some "ISBN") = [] →
       xs = pre ++ x :: post →
       (∀ y ∈ pre, ∃ w, y.value = some w ∧
          (cleanIsbn w).length ≠ 10 ∧ (cleanIsbn w).length ≠ 13) →
       x.value = some v →
       ((cleanIsbn v).length = 10 ∨ (cleanIsbn v).length = 13) →
       rf_isbn md = Except.ok (cleanIsbn v)) := by
  have hisbn : md.isbn =
      Except.ok (xs.filter (fun y => dget y.attribs "scheme" == some "ISBN")) :=
    identifiers_present_filtered md xs "ISBN" hp (by decide)
  have hall := identifiers_present_all md xs hp
  refine ⟨?_, ?_, ?_⟩
  · intro x tl v hfil hv
    simp [rf_isbn, hisbn, hfil, hv]
  · intro hfil hbad
    simp [rf_isbn, hisbn, hfil, hall]
    exact scanIds_bad xs hbad
  · intro pre x post v hfil hsplit hpre hv hlen
    have h1 : rf_isbn md = scanIds xs := by
      simp [rf_isbn, hisbn, hfil, hall]
    rw [h1, hsplit]
    exact scanIds_found pre x post v hpre hv hlen

/-- C5 (witness): the spec's example — a single scheme-`ISBN` identifier
`978-0-13-468599-1` — resolves the slot to `9780134685991`. -/
theorem c5_witness :
    rf_isbn mdIsbnEx = Except.ok (cleanIsbn "978-0-13-468599-1")
    ∧ cleanIsbn "978-0-13-468599-1" = "9780134685991" :=
  ⟨(c5_theorem mdIsbnEx [mvIsbnEx] rfl).1 mvIsbnEx [] "978-0-13-468599-1"
     rfl rfl,
   rfl⟩

/-- C6: the short-title slot is the title value's portion before the first
colon, but it is not trimmed: Python's `title.value.split(':')[0]` keeps the
space before the colon of `"A : B"`, so the slot is `"A "` where the claim's
trimmed reading yields `"A"`. -/
theorem c6_counterexample :
    rf_short_title mdColonTitle = Except.ok "A "
    ∧ spec_short_title "A : B" = "A"
    ∧ rf_short_title mdColonTitle ≠ Except.ok (spec_short_title "A : B") :=
  ⟨rfl, rfl, by decide⟩

/-- C6 (amended): the short-title slot is the title value's portion before the
first colon, kept as-is (the extractor already stripped the whole title text,
but whitespace adjacent to the colon is preserved); when the title field is
absent the slot is `UNKNOWN`. -/
theorem c6_theorem (md : MetadataDict) :
    (dget md.singles "title" = none → rf_short_title md = Except.ok UNKNOWN)
    ∧ (∀ t v, dget md.singles "title" = some t → t.value = some v →
       rf_short_title md = Except.ok (splitFirst v ':')) := by
  constructor
  · intro h
    simp [rf_short_title, h]
  · intro t v ht hv
    simp [rf_short_title, ht, hv]

/-- C6 (witness): `c6_theorem` evaluated on a record without a title and on a
concrete colon-bearing title. -/
theorem c6_witness :
    rf_short_title mdEmpty = Except.ok UNKNOWN
    ∧ rf_short_title mdWarPeace = Except.ok (splitFirst "War and Peace: A Novel" ':') :=
  ⟨(c6_theorem mdEmpty).1 rfl,
   (c6_theorem mdWarPeace).2 (mvPlain "War and Peace: A Novel")
     "War and Peace: A Novel" rfl rfl⟩

/-- C7: extraction stores, for each single-cardinality field, the first
matching namespaced child as one `MetaValue`, and for each multi-cardinality
field all matching namespaced children in document order; a field with zero
matching tags is omitted from the mapping entirely; a present but textually
empty tag yields a `MetaValue` whose value is `""`, and non-empty text is
stored trimmed. -/
theorem c7_theorem (m x : XmlTag) (s : String) :
    (∀ t, t ∈ ["publisher", "language", "title", "description"] →
       dget (build m).singles t =
         Option.map tag_to_metval (m.findChild (nsTag DC_NS t)))
    ∧ (∀ t, t ∈ ["creator", "contributor", "identifier", "date"] →
       (m.findAll (nsTag DC_NS t) = [] → dget (build m).multis t = none)
       ∧ (∀ e es, m.findAll (nsTag DC_NS t) = e :: es →
          dget (build m).multis t = some (List.map tag_to_metval (e :: es))))
    ∧ (x.text = none ∨ x.text = some "" → (tag_to_metval x).value = some "")
    ∧ (x.text = some s → s ≠ "" → (tag_to_metval x).value = some (pyStrip s)) := by
  refine ⟨?_, ?_, ?_, ?_⟩
  · intro t ht
    fin_cases ht
    · simp [build, dget_append, dget_buildSingle_eq,
        dget_buildSingle_ne m "language" "publisher" (by decide),
        dget_buildSingle_ne m "title" "publisher" (by decide),
        dget_buildSingle_ne m "description" "publisher" (by decide)]
    · simp [build, dget_append, dget_buildSingle_eq,
        dget_buildSingle_ne m "publisher" "language" (by decide),
        dget_buildSingle_ne m "title" "language" (by decide),
        dget_buildSingle_ne m "description" "language" (by decide)]
    · simp [build, dget_append, dget_buildSingle_eq,
        dget_buildSingle_ne m "publisher" "title" (by decide),
        dget_buildSingle_ne m "language" "title" (by decide),
        dget_buildSingle_ne m "description" "title" (by decide)]
    · simp [build, dget_append, dget_buildSingle_eq,
        dget_buildSingle_ne m "publisher" "description" (by decide),
        dget_buildSingle_ne m "language" "description" (by decide),
        dget_buildSingle_ne m "title" "description" (by decide)]
  · intro t ht
    fin_cases ht
    · constructor
      · intro h
        simp [build, dget_append, dget_buildMulti_nil m "creator" h,
          dget_buildMulti_ne m "contributor" "creator" (by decide),
          dget_buildMulti_ne m "identifier" "creator" (by decide),
          dget_buildMulti_ne m "date" "creator" (by decide)]
      · intro e es h
        simp [build, dget_append, dget_buildMulti_cons m "creator" e es h,
          dget_buildMulti_ne m "contributor" "creator" (by decide),
          dget_buildMulti_ne m "identifier" "creator" (by decide),
          dget_buildMulti_ne m "date" "creator" (by decide)]
    · constructor
      · intro h
        simp [build, dget_append, dget_buildMulti_nil m "contributor" h,
          dget_buildMulti_ne m "creator" "contributor" (by decide),
          dget_buildMulti_ne m "identifier" "contributor" (by decide),
          dget_buildMulti_ne m "date" "contributor" (by decide)]
      · intro e es h
        simp [build, dget_append, dget_buildMulti_cons m "contributor" e es h,
          dget_buildMulti_ne m "creator" "contributor" (by decide),
          dget_buildMulti_ne m "identifier" "contributor" (by decide),
          dget_buildMulti_ne m "date" "contributor" (by decide)]
    · constructor
      · intro h
        simp [build, dget_append, dget_buildMulti_nil m "identifier" h,
          dget_buildMulti_ne m "creator" "identifier" (by decide),
          dget_buildMulti_ne m "contributor" "identifier" (by decide),
          dget_buildMulti_ne m "date" "identifier" (by decide)]
      · intro e es h
        simp [build, dget_append, dget_buildMulti_cons m "identifier" e es h,
          dget_buildMulti_ne m "creator" "identifier" (by decide),
          dget_buildMulti_ne m "contributor" "identifier" (by decide),
          dget_buildMulti_ne m "date" "identifier" (by decide)]
    · constructor
      · intro h
        simp [build, dget_append, dget_buildMulti_nil m "date" h,
          dget_buildMulti_ne m "creator" "date" (by decide),
          dget_buildMulti_ne m "contributor" "date" (by decide),
          dget_buildMulti_ne m "identifier" "date" (by decide)]
      · intro e es h
        simp [build, dget_append, dget_buildMulti_cons m "date" e es h,
          dget_buildMulti_ne m "creator" "date" (by decide),
          dget_buildMulti_ne m "contributor" "date" (by decide),
          dget_buildMulti_ne m "identifier" "date" (by decide)]
  · rintro (h | h) <;> simp [tag_to_metval, h]
  · intro hx hs
    simp [tag_to_metval, hx, hs]

/-- C7 (witness): `c7_theorem` evaluated on the concrete metadata element
`mEx` — the title is stored once, both creators are stored in order, the
absent date field is omitted, and the empty description yields value `""`. -/
theorem c7_witness :
    dget (build mEx).singles "title" =
      Option.map tag_to_metval (mEx.findChild (nsTag DC_NS "title"))
    ∧ dget (build mEx).multis "creator" =
      some (List.map tag_to_metval [xCreator1Ex, xCreator2Ex])
    ∧ dget (build mEx).multis "date" = none
    ∧ (tag_to_metval xDescEx).value = some "" :=
  ⟨(c7_theorem mEx mEx "").1 "title" (by simp),
   ((c7_theorem mEx mEx "").2.1 "creator" (by simp)).2 xCreator1Ex
     [xCreator2Ex] rfl,
   ((c7_theorem mEx mEx "").2.1 "date" (by simp)).1 rfl,
   (c7_theorem mEx xDescEx "").2.2.1 (Or.inr rfl)⟩

/-- C8: when the located descriptor's bytes are not well-formed XML,
extraction fails with a hard parse error, while a well-formed descriptor
whose root has no namespaced `metadata` child yields the absence result
(`None`) without error — two outcomes the caller can tell apart. -/
theorem c8_theorem (z : EpubZip) (p : String) (root : XmlTag)
    (hf : find_contents_file z = Except.ok (some p)) (hp : p ≠ "") :
    (zipRead z p = Except.ok Doc.malformed →
       get_metadata z = Except.error PyErr.parseError)
    ∧ (zipRead z p = Except.ok (Doc.xml root) →
       root.findChild (nsTag OPF_NS "metadata") = none →
       get_metadata z = Except.ok none)
    ∧ Except.error PyErr.parseError ≠
        (Except.ok none : Except PyErr (Option MetadataDict)) := by
  have hb : pyTruthyOptStr (some p) = true := by simp [pyTruthyOptStr, hp]
  have hread : ∀ d, zipRead z p = Except.ok d →
      read_contents_file z = Except.ok (some d) := by
    intro d hd
    simp [read_contents_file, hf, hb, hd]
  refine ⟨?_, ?_, by simp⟩
  · intro hd
    have hr := hread _ hd
    simp [get_metadata, hr, fromstring]
  · intro hd hm
    have hr := hread _ hd
    simp [get_metadata, hr, fromstring, hm]

/-- C8 (witness): `c8_theorem` evaluated on two concrete archives — one whose
`content.opf` is malformed (hard parse error) and one whose `content.opf` has
no `metadata` element (absence, no error). -/
theorem c8_witness :
    get_metadata zMalformedOpf = Except.error PyErr.parseError
    ∧ get_metadata zNoMetaOpf = Except.ok none :=
  ⟨(c8_theorem zMalformedOpf "content.opf" ⟨"", [], none, []⟩ rfl
      (by decide)).1 rfl,
   (c8_theorem zNoMetaOpf "content.opf" ⟨nsTag OPF_NS "package", [], none, []⟩
      rfl (by decide)).2.1 rfl rfl⟩

/-- C9: a `MetaValue` constructed through the bare constructor has a null
value — the claim's "every MetaValue, once constructed, has a non-null value"
fails on `MetaValue(value=None)`, which is exactly what the default argument
produces. -/
theorem c9_counterexample :
    (MetaValue.init ⟨[]⟩ 0 none).value = none :=
  rfl

/-- C9 (amended): every `MetaValue` built by the extraction pipeline
(`tag_to_metval`) has a non-null value and attribute keys that are the
namespace-stripped, lower-cased forms of source keys; the attribute dict is
deep-copied at construction, so the constructed value's attributes equal the
pre-mutation heap contents while the mutated slot itself changes — mutating
the source dict after construction cannot alter the `MetaValue`. -/
theorem c9_theorem (x : XmlTag) (h : AttrHeap) (i : Nat) (v : Option String)
    (m : AttrMap) (q : String × String)
    (hq : q ∈ (tag_to_metval x).attribs) (hi : i < h.slots.length) :
    (tag_to_metval x).value ≠ none
    ∧ (∃ p ∈ x.attrib, q.1 = pyLower (strip_namespace p.1))
    ∧ (buildThenMutate h i v m).1.attribs = heapGet h i
    ∧ heapGet (buildThenMutate h i v m).2 i = m := by
  refine ⟨?_, clean_attribs_keys x.attrib q hq, rfl, ?_⟩
  · cases hx : x.text <;> simp [tag_to_metval]
  · unfold buildThenMutate heapGet heapSet
    simp [List.getD, List.getElem?_set_self, hi]

/-- C9 (witness): `c9_theorem` evaluated on the concrete creator element and a
one-slot heap — the built value is non-null, the key `role` stems from the
namespaced `opf:role`, and the constructed attributes survive a mutation of
the source slot. -/
theorem c9_witness :
    (tag_to_metval xCreator1Ex).value ≠ none
    ∧ (∃ p ∈ xCreator1Ex.attrib,
        ("role", "aut").1 = pyLower (strip_namespace p.1))
    ∧ (buildThenMutate ⟨[[("k", "v")]]⟩ 0 (some "t") [("k", "w")]).1.attribs =
        heapGet ⟨[[("k", "v")]]⟩ 0
    ∧ heapGet (buildThenMutate ⟨[[("k", "v")]]⟩ 0 (some "t") [("k", "w")]).2 0 =
        [("k", "w")] :=
  c9_theorem xCreator1Ex ⟨[[("k", "v")]]⟩ 0 (some "t") [("k", "w")]
    ("role", "aut") (by decide) (by decide)

/-- C10: whenever the locator returns a path, that path is an exact member of
the archive's listing, and `read_contents_file` consequently succeeds — it
can never fail with a missing-member `KeyError` for a located path. -/
theorem c10_theorem (z : EpubZip) (p : String)
    (hf : find_contents_file z = Except.ok (some p)) :
    p ∈ z.namelist ∧ ∃ r, read_contents_file z = Except.ok r := by
  have hfh : ∃ c, contents_path_from_container z = Except.ok c ∧
      firstHit z.namelist (c :: possibleFallbacks) = some p := by
    cases hc : contents_path_from_container z with
    | error e => simp [find_contents_file, hc] at hf
    | ok c => exact ⟨c, rfl, by simpa [find_contents_file, hc] using hf⟩
  obtain ⟨c, hc, hfirst⟩ := hfh
  have hmem : p ∈ z.namelist := firstHit_mem _ _ _ hfirst
  refine ⟨hmem, ?_⟩
  cases hb : pyTruthyOptStr (some p) with
  | false => exact ⟨none, by simp [read_contents_file, hf, hb]⟩
  | true =>
    obtain ⟨d, hd⟩ := dget_of_mem_keys z.members p hmem
    exact ⟨some d, by simp [read_contents_file, hf, hb, zipRead, hd]⟩

/-- C10 (witness): `c10_theorem` evaluated on a concrete archive that resolves
to its top-level `content.opf`. -/
theorem c10_witness :
    "content.opf" ∈ zNoFullPath.namelist
    ∧ ∃ r, read_contents_file zNoFullPath = Except.ok r :=
  c10_theorem zNoFullPath "content.opf" rfl

end Alexandria
